import Mathlib

/-
Verification development for the design-token extraction and adaptive
theming engine of the char-plugin repository.

The development shallowly embeds:
  - the `rgbToHex` helper (VISUAL_INTEGRATION.md, Color Conversion section);
  - the collapsible-sidebar injection script of LIVE_PREVIEW.md Step 8
    (panel construction, toggle wiring, app-shell mutation);
  - the Token Extractor operations (`extractBackgroundAndForeground`,
    `extractPrimaryColor`, `extractAccentColor`, `extractCornerRadius`,
    `classifyColorScheme`) and the Theme Mapper
    (`mapTokensToThemeVariables`).  The extraction script
    `assets/scripts/extract-page-styles.js` is referenced by the
    repository but its body is not among the provided sources, so these
    operations are modelled from the spec, as indicated on each
    definition.
-/

set_option autoImplicit false

namespace CharPlugin

/-- Computed CSS color values as the extractor sees them: either a fully
transparent / unset value or a solid sRGB triple. -/
inductive CssColor where
  | transparent
  | rgb (r g b : Nat)
  deriving DecidableEq, Repr

/-- Light/dark classification of a page. -/
inductive Scheme where
  | light
  | dark
  deriving DecidableEq, Repr

/- ---------------------------------------------------------------------
Digit-run extraction, shared by `rgbToHex` (which uses the JavaScript
regular expression `/\d+/g`) and the RGB parser of `classifyColorScheme`.
--------------------------------------------------------------------- -/

/-- Numeric value of a list of decimal digit characters, as JavaScript's
`Number` computes it on a digit-only string. -/
def digitsToNat (cs : List Char) : Nat :=
  cs.foldl (fun n c => 10 * n + (c.toNat - 48)) 0

/-- Accumulating scanner producing the maximal runs of consecutive decimal
digits of a character list, in order; `acc` holds the reversed current run. -/
def digitRunsAux : List Char → List Char → List (List Char)
  | [], acc => if acc.isEmpty then [] else [acc.reverse]
  | c :: rest, acc =>
    if c.isDigit then
      digitRunsAux rest (c :: acc)
    else
      if acc.isEmpty then digitRunsAux rest []
      else acc.reverse :: digitRunsAux rest []

/-- Numeric values of the maximal decimal digit runs of a string, in order:
the embedding of JavaScript `s.match(/\d+/g)` followed by `Number` on each
matched run. -/
def digitRuns (s : String) : List Nat :=
  (digitRunsAux s.data []).map digitsToNat

/- ---------------------------------------------------------------------
`rgbToHex` from VISUAL_INTEGRATION.md (source):

  function rgbToHex(rgb) {
    const match = rgb.match(/\d+/g);
    if (!match) return rgb;
    const [r, g, b] = match.map(Number);
    return '#' + [r, g, b].map(x => x.toString(16).padStart(2, '0')).join('');
  }
--------------------------------------------------------------------- -/

/-- Result of JavaScript `String.prototype.padStart(2, '0')` on a list of
characters: pad with leading zeros up to length two. -/
def padStart2 (cs : List Char) : List Char :=
  List.replicate (2 - cs.length) '0' ++ cs

/-- Embedding of `x.toString(16).padStart(2, '0')` where `x` is
`Number(run)` for the `i`-th digit run: a missing run destructures to
`undefined`, whose `Number` is `NaN`, printed as the string `NaN` (which
`padStart` leaves unchanged).  `Nat.toDigits 16` matches JavaScript's
lowercase hexadecimal digits with no leading zeros. -/
def hexByte (x : Option Nat) : String :=
  match x with
  | some n => String.mk (padStart2 (Nat.toDigits 16 n))
  | none => "NaN"

/-- Embedding of the `rgbToHex` helper of VISUAL_INTEGRATION.md. -/
def rgbToHex (s : String) : String :=
  match digitRuns s with
  | [] => s
  | _ :: _ =>
    let runs := digitRuns s
    "#" ++ hexByte (runs.get? 0) ++ hexByte (runs.get? 1) ++ hexByte (runs.get? 2)

/- ---------------------------------------------------------------------
`classifyColorScheme`.  Modelled from the spec: the extraction script is
not among the provided sources; the spec prescribes parsing the page
background into RGB components, the perceptual luminance weighting
0.299 R + 0.587 G + 0.114 B on components normalized to [0,1], the 0.5
threshold, and the fallback chain luminance -> system dark-mode
preference -> light.
--------------------------------------------------------------------- -/

/-- Modelled from the spec: parse a computed background color string into
its RGB components, taking the first three decimal digit runs (the form
`rgb(r, g, b)` produced by `getComputedStyle`); fails when fewer than
three runs are present. -/
def parseRgb (s : String) : Option (Nat × Nat × Nat) :=
  match digitRuns s with
  | r :: g :: b :: _ => some (r, g, b)
  | _ => none

/-- Relative luminance of an sRGB triple with the perceptual weighting of
the spec, as a single rational. -/
def lumQ (r g b : Nat) : ℚ :=
  (299 * r + 587 * g + 114 * b : ℚ) / 255000

/-- Luminance exactly as the spec words it: 0.299 R + 0.587 G + 0.114 B
with each component first normalized to the range [0,1]. -/
def lumSpec (r g b : Nat) : ℚ :=
  (299 / 1000) * ((r : ℚ) / 255) + (587 / 1000) * ((g : ℚ) / 255)
    + (114 / 1000) * ((b : ℚ) / 255)

theorem lumQ_eq_lumSpec (r g b : Nat) : lumQ r g b = lumSpec r g b := by
  unfold lumQ lumSpec
  ring

/-- Modelled from the spec: `classifyColorScheme` on the page background
color string and the system dark-mode preference signal (`none` when the
signal is unavailable).  Three-tier fallback: computed luminance, then
system preference, then the static default `light`. -/
def classifyColorScheme (bg : String) (sysPrefersDark : Option Bool) : Scheme :=
  match parseRgb bg with
  | some (r, g, b) => if lumQ r g b > 1 / 2 then .light else .dark
  | none =>
    match sysPrefersDark with
    | some true => .dark
    | some false => .light
    | none => .light

/- ---------------------------------------------------------------------
Page model for the Token Extractor.  Modelled from the spec: the live
document is abstracted into the candidate element lists that the
prioritized cascades query, plus the computed style of the root content
container (which, per CSS, always resolves to some computed value).
--------------------------------------------------------------------- -/

/-- Computed presentation values of one candidate element: its computed
background color, computed border color, computed text color. -/
structure Elem where
  bg : CssColor
  border : CssColor
  textColor : CssColor
  deriving DecidableEq, Repr

/-- Computed style of the document's root content container; per CSS every
property resolves to some computed value, so all fields are total. -/
structure ComputedStyle where
  backgroundColor : CssColor
  color : CssColor
  fontFamily : String
  fontSize : Nat
  deriving DecidableEq, Repr

/-- Abstraction of a rendered page: the root container's computed style,
the elements matching each semantic role hint of the cascades (in document
order), the corner radii of the rounded-surface candidates (in candidate
order, pixels), and the system dark-mode preference signal. -/
structure Page where
  rootStyle : ComputedStyle
  ctaButtons : List Elem
  roleButtons : List Elem
  primaryMarked : List Elem
  anchors : List Elem
  highlightBadges : List Elem
  radiusCandidates : List Nat
  prefersDark : Option Bool
  deriving Repr

/- ---------------------------------------------------------------------
Token Extractor cascades.  Modelled from the spec (the script
extract-page-styles.js is not among the provided sources); the manual
snippets of VISUAL_INTEGRATION.md (button background for the primary
color, first-match border radius with an 8px default) fix the concrete
signals and the default radius constant.
--------------------------------------------------------------------- -/

/-- Signal a primary-color candidate yields: its computed background color
first; if that is transparent/unset, its computed border color; none when
both are transparent/unset. -/
def signalOf (e : Elem) : Option CssColor :=
  match e.bg with
  | .rgb r g b => some (.rgb r g b)
  | .transparent =>
    match e.border with
    | .rgb r g b => some (.rgb r g b)
    | .transparent => none

/-- Signal an accent-color candidate yields: its computed background color
first, falling back to its computed text color. -/
def accentSignalOf (e : Elem) : Option CssColor :=
  match e.bg with
  | .rgb r g b => some (.rgb r g b)
  | .transparent =>
    match e.textColor with
    | .rgb r g b => some (.rgb r g b)
    | .transparent => none

/-- First candidate of a list that yields a primary-color signal. -/
def firstWithSignal : List Elem → Option Elem
  | [] => none
  | e :: rest => if (signalOf e).isSome then some e else firstWithSignal rest

/-- First primary-color signal yielded along a candidate list. -/
def firstSignal : List Elem → Option CssColor
  | [] => none
  | e :: rest =>
    match signalOf e with
    | some c => some c
    | none => firstSignal rest

/-- First accent-color signal yielded along a candidate list. -/
def firstAccentSignal : List Elem → Option CssColor
  | [] => none
  | e :: rest =>
    match accentSignalOf e with
    | some c => some c
    | none => firstAccentSignal rest

/-- Modelled from the spec: `extractPrimaryColor` walks the prioritized
candidate list — enabled call-to-action buttons, then button-role
elements, then primary/cta-marked elements, then generic anchors — and
stops at the first candidate yielding a non-transparent signal
(background color first, border color as that candidate's fallback). -/
def extractPrimaryColor (p : Page) : Option CssColor :=
  firstSignal (p.ctaButtons ++ p.roleButtons ++ p.primaryMarked ++ p.anchors)

/-- Modelled from the spec: `extractAccentColor` runs the same cascade
pattern over highlight/badge/tag-like elements and then generic anchors,
preferring the background color and falling back to the text color. -/
def extractAccentColor (p : Page) : Option CssColor :=
  firstAccentSignal (p.highlightBadges ++ p.anchors)

/-- First literally non-zero radius along the candidate list. -/
def firstNonZero : List Nat → Option Nat
  | [] => none
  | r :: rest => if r ≠ 0 then some r else firstNonZero rest

/-- Modelled from the spec: `extractCornerRadius` cascades over the
rounded-surface candidates and returns the first non-zero computed corner
radius, defaulting to the fixed designed constant (8 pixels, the `'8px'`
of the VISUAL_INTEGRATION.md detection snippet) only when every candidate
yields literally zero. -/
def extractCornerRadius (p : Page) : Nat :=
  (firstNonZero p.radiusCandidates).getD 8

/-- Modelled from the spec: color-scheme classification applied directly
to the root background as a structured color (the string-level
`classifyColorScheme` parses the same components first). -/
def classifyOfColor (c : CssColor) (sysPrefersDark : Option Bool) : Scheme :=
  match c with
  | .rgb r g b => if lumQ r g b > 1 / 2 then .light else .dark
  | .transparent =>
    match sysPrefersDark with
    | some true => .dark
    | some false => .light
    | none => .light

/-- Flat record of inferred design tokens as the Extractor serializes it:
every field optional, absence meaning "no confident signal found". -/
structure RawTokens where
  backgroundColor : Option CssColor
  foregroundColor : Option CssColor
  primaryColor : Option CssColor
  accentColor : Option CssColor
  fontFamily : Option String
  fontSize : Option Nat
  cornerRadius : Option Nat
  colorScheme : Option Scheme
  deriving DecidableEq, Repr

/-- Modelled from the spec: `extractBackgroundAndForeground` reads the
computed surface color and computed text color of the document's root
content container (the body snippet of VISUAL_INTEGRATION.md:
`bodyStyles.backgroundColor` and `bodyStyles.color`). -/
def extractBackgroundAndForeground (p : Page) : CssColor × CssColor :=
  (p.rootStyle.backgroundColor, p.rootStyle.color)

/-- Modelled from the spec: the full Token Extractor, assembling one
`RawTokens` record from the current document state. -/
def extractTokens (p : Page) : RawTokens :=
  { backgroundColor := some (extractBackgroundAndForeground p).1
    foregroundColor := some (extractBackgroundAndForeground p).2
    primaryColor := extractPrimaryColor p
    accentColor := extractAccentColor p
    fontFamily := some p.rootStyle.fontFamily
    fontSize := some p.rootStyle.fontSize
    cornerRadius := some (extractCornerRadius p)
    colorScheme := some (classifyOfColor p.rootStyle.backgroundColor p.prefersDark) }

/- ---------------------------------------------------------------------
Theme Mapper.  Modelled from the spec with the widget vocabulary of the
sources (the --char-* variables of CUSTOMIZATION.md and the Step 7
mapping of LIVE_PREVIEW.md): each present token feeds its fixed widget
variable(s); a present primary color additionally derives the on-primary
foreground as whichever of pure black/white contrasts more; absent tokens
leave their widget variables unset.
--------------------------------------------------------------------- -/

/-- CSS serialization of a structured color. -/
def cssColorStr : CssColor → String
  | .transparent => "transparent"
  | .rgb r g b => "rgb(" ++ toString r ++ ", " ++ toString g ++ ", " ++ toString b ++ ")"

/-- Modelled from the spec: the on-primary foreground is whichever of pure
black and pure white yields the higher contrast against the primary, i.e.
black over a light primary and white over a dark one (white as well for a
degenerate transparent primary). -/
def onPrimaryColor (c : CssColor) : String :=
  match c with
  | .rgb r g b => if lumQ r g b > 1 / 2 then "rgb(0, 0, 0)" else "rgb(255, 255, 255)"
  | .transparent => "rgb(255, 255, 255)"

/-- Entry list for one optional widget variable: one binding when the
value is present, no binding at all when it is absent. -/
def optVar (name : String) (v : Option String) : List (String × String) :=
  match v with
  | some s => [(name, s)]
  | none => []

/-- Modelled from the spec: the fixed, total token-to-variable mapping
onto the widget's --char-* vocabulary, producing the bindings in a fixed
order. -/
def mapTokensToThemeVariables (t : RawTokens) : List (String × String) :=
  optVar "--char-color-background" (t.backgroundColor.map cssColorStr) ++
  optVar "--char-color-foreground" (t.foregroundColor.map cssColorStr) ++
  optVar "--char-color-primary" (t.primaryColor.map cssColorStr) ++
  optVar "--char-color-primary-foreground" (t.primaryColor.map onPrimaryColor) ++
  optVar "--char-color-muted" (t.accentColor.map cssColorStr) ++
  optVar "--char-radius" (t.cornerRadius.map (fun n => toString n ++ "px")) ++
  optVar "--char-font-sans" t.fontFamily

/-- Value bound to a widget variable name in a theme-variable map; `none`
when the variable is left unset. -/
def lookupVar : List (String × String) → String → Option String
  | [], _ => none
  | (k, v) :: rest, key => if k = key then some v else lookupVar rest key

/- ---------------------------------------------------------------------
Injected-panel construction and state machine, embedded from the Step 8
sidebar injection script of LIVE_PREVIEW.md (source):

  const appShell = document.querySelector('.flex.h-screen.w-full')
    || document.querySelector('[class*="flex"]');
  appShell.style.overflow = 'hidden';
  ... (panel created with width: 0; toggle button appended with
  display: flex) ...
  btn.addEventListener('click', () => {
    panel.style.width = '420px';
    panel.style.borderColor = 'var(--border)';
    btn.style.display = 'none';
  });
  document.addEventListener('char-close', () => {
    panel.style.width = '0';
    panel.style.borderColor = 'transparent';
    btn.style.display = 'flex';
  });
--------------------------------------------------------------------- -/

/-- Observable state of the injected panel: panel width in pixels, whether
the toggle button is displayed, and whether the panel border is
transparent. -/
structure PanelState where
  width : Nat
  toggleShown : Bool
  borderTransparentStyle : Bool
  deriving DecidableEq, Repr

/-- Events that can reach the Step 8 handlers: a click on the toggle
button and the widget's `char-close` event.  The script registers no
timer, so these are the only sources of transitions. -/
inductive PanelEvent where
  | toggleClick
  | charClose
  deriving DecidableEq, Repr

/-- State the Step 8 script leaves the panel in right after construction:
`width: 0`, toggle button displayed (`display: flex`), border transparent. -/
def initPanelState : PanelState :=
  { width := 0, toggleShown := true, borderTransparentStyle := true }

/-- Collapsed state of the spec's panel state machine: width 0, toggle
visible. -/
def collapsedState : PanelState := initPanelState

/-- Expanded state of the spec's panel state machine: the fixed 420 pixel
width, toggle hidden. -/
def expandedState : PanelState :=
  { width := 420, toggleShown := false, borderTransparentStyle := false }

/-- Transition function read off the two Step 8 event handlers: each
handler writes the same fixed style values regardless of the current
state. -/
def panelStep (_s : PanelState) (e : PanelEvent) : PanelState :=
  match e with
  | .toggleClick => expandedState
  | .charClose => collapsedState

/-- Panel state after the script's construction followed by a sequence of
user events. -/
def panelRun (evs : List PanelEvent) : PanelState :=
  evs.foldl panelStep initPanelState

/- ---------------------------------------------------------------------
DOM-level effect of the Step 8 script on the host page.
--------------------------------------------------------------------- -/

/-- App-shell element as the script touches it: its computed `overflow`
style and the identifiers of its children. -/
structure Shell where
  overflow : String
  children : List String
  deriving DecidableEq, Repr

/-- Host page right before injection: the app shell found by the two
`querySelector` calls (`none` when no element with a flex marker exists
anywhere on the page), the children of `document.body`, and the styles of
all other pre-existing elements, as an association list from element
identifier to serialized style. -/
structure HostPage where
  appShell : Option Shell
  bodyChildren : List String
  otherStyles : List (String × String)
  deriving DecidableEq, Repr

/-- Failure modes of an injected script run: the generic JavaScript
`TypeError` raised by dereferencing the `null` result of `querySelector`,
and the distinct injection-failure outcome the spec's error taxonomy
calls for (present in the type so that the two reports can be compared;
the embedded script never produces it). -/
inductive JsError where
  | typeError
  | injectionFailure
  deriving DecidableEq, Repr

/-- Embedding of the Step 8 script's effect on the host page: with no
flex app shell, the unguarded `appShell.style.overflow` dereference
raises a generic `TypeError`; otherwise the script sets the shell's
`overflow` to `hidden`, appends the panel as a new last child of the
shell, appends the toggle button to `document.body`, and touches nothing
else. -/
def buildInjectedPanel (p : HostPage) : Except JsError HostPage :=
  match p.appShell with
  | none => .error .typeError
  | some sh =>
    .ok { p with
          appShell := some { overflow := "hidden"
                             children := sh.children ++ ["char-panel"] }
          bodyChildren := p.bodyChildren ++ ["char-toggle"] }

/- ---------------------------------------------------------------------
Concrete fixtures shared by witnesses and counterexamples.
--------------------------------------------------------------------- -/

/-- Typical light root style of the end-to-end scenarios. -/
def plainStyle : ComputedStyle :=
  { backgroundColor := .rgb 255 255 255, color := .rgb 51 51 51
    fontFamily := "system-ui", fontSize := 16 }

/-- Page with no cascade candidates at all. -/
def emptyPage : Page :=
  { rootStyle := plainStyle, ctaButtons := [], roleButtons := []
    primaryMarked := [], anchors := [], highlightBadges := []
    radiusCandidates := [], prefersDark := none }

/-- Enabled call-to-action button whose computed background is transparent
but whose computed border carries a color. -/
def ctaBorderOnly : Elem :=
  { bg := .transparent, border := .rgb 255 0 0, textColor := .rgb 0 0 0 }

/-- Enabled, visibly-colored call-to-action button (solid blue
background). -/
def ctaBlue : Elem :=
  { bg := .rgb 0 0 255, border := .transparent, textColor := .rgb 255 255 255 }

/- ---------------------------------------------------------------------
Helper lemmas on the cascade primitives.
--------------------------------------------------------------------- -/

theorem digitRunsAux_nil_of_no_digit :
    ∀ cs : List Char, (∀ c ∈ cs, ¬ c.isDigit = true) → digitRunsAux cs [] = [] := by
  intro cs h
  induction cs with
  | nil => rfl
  | cons c rest ih =>
    have hc : ¬ c.isDigit = true := h c (by simp)
    have hrest : ∀ c ∈ rest, ¬ c.isDigit = true := fun x hx => h x (by simp [hx])
    simp [digitRunsAux, hc, List.isEmpty]
    exact ih hrest

theorem firstSignal_eq_none_iff (l : List Elem) :
    firstSignal l = none ↔ ∀ e ∈ l, signalOf e = none := by
  induction l with
  | nil => simp [firstSignal]
  | cons e rest ih =>
    cases h : signalOf e with
    | some c => simp [firstSignal, h]
    | none => simp [firstSignal, h, ih]

theorem firstAccentSignal_eq_none_iff (l : List Elem) :
    firstAccentSignal l = none ↔ ∀ e ∈ l, accentSignalOf e = none := by
  induction l with
  | nil => simp [firstAccentSignal]
  | cons e rest ih =>
    cases h : accentSignalOf e with
    | some c => simp [firstAccentSignal, h]
    | none => simp [firstAccentSignal, h, ih]

theorem firstSignal_append_of_firstWithSignal (l1 l2 : List Elem) (e : Elem)
    (h : firstWithSignal l1 = some e) :
    firstSignal (l1 ++ l2) = signalOf e := by
  induction l1 with
  | nil => simp [firstWithSignal] at h
  | cons a rest ih =>
    by_cases ha : (signalOf a).isSome
    · have hae : a = e := by
        simp [firstWithSignal, ha] at h
        exact h
      obtain ⟨c, hc⟩ := Option.isSome_iff_exists.mp ha
      subst hae
      simp [firstSignal, hc]
    · have h2 : firstWithSignal rest = some e := by
        simpa [firstWithSignal, ha] using h
      have hnone : signalOf a = none := Option.not_isSome_iff_eq_none.mp ha
      simp [firstSignal, hnone, ih h2]

theorem signalOf_of_bg (e : Elem) (r g b : Nat) (h : e.bg = CssColor.rgb r g b) :
    signalOf e = some (CssColor.rgb r g b) := by
  simp [signalOf, h]

theorem firstNonZero_eq_none_iff (l : List Nat) :
    firstNonZero l = none ↔ ∀ x ∈ l, x = 0 := by
  induction l with
  | nil => simp [firstNonZero]
  | cons x rest ih =>
    by_cases hx : x = 0
    · subst hx; simp [firstNonZero, ih]
    · simp [firstNonZero, hx]

theorem firstNonZero_some_spec (l : List Nat) (r : Nat)
    (h : firstNonZero l = some r) :
    r ≠ 0 ∧ ∃ i, l.get? i = some r ∧ ∀ j < i, l.get? j = some 0 := by
  induction l with
  | nil => simp [firstNonZero] at h
  | cons x rest ih =>
    by_cases hx : x = 0
    · subst hx
      have h2 : firstNonZero rest = some r := by simpa [firstNonZero] using h
      obtain ⟨hr, i, hi, hlt⟩ := ih h2
      refine ⟨hr, i + 1, by simpa using hi, ?_⟩
      intro j hj
      cases j with
      | zero => rfl
      | succ k => exact hlt k (Nat.lt_of_succ_lt_succ hj)
    · have hxr : x = r := by
        have := h
        simp [firstNonZero, hx] at this
        exact this
      subst hxr
      exact ⟨hx, 0, rfl, by intro j hj; omega⟩

theorem panelRun_cases (evs : List PanelEvent) :
    panelRun evs = collapsedState ∨ panelRun evs = expandedState := by
  have aux : ∀ (l : List PanelEvent) (s : PanelState),
      s = collapsedState ∨ s = expandedState →
      l.foldl panelStep s = collapsedState ∨ l.foldl panelStep s = expandedState := by
    intro l
    induction l with
    | nil => intro s hs; simpa using hs
    | cons e rest ih =>
      intro s _
      cases e with
      | toggleClick => exact ih (panelStep s .toggleClick) (Or.inr rfl)
      | charClose => exact ih (panelStep s .charClose) (Or.inl rfl)
  exact aux evs initPanelState (Or.inl rfl)

set_option maxHeartbeats 3200000 in
theorem lookupVar_map (t : RawTokens) :
    lookupVar (mapTokensToThemeVariables t) "--char-color-background" =
        t.backgroundColor.map cssColorStr ∧
    lookupVar (mapTokensToThemeVariables t) "--char-color-foreground" =
        t.foregroundColor.map cssColorStr ∧
    lookupVar (mapTokensToThemeVariables t) "--char-color-primary" =
        t.primaryColor.map cssColorStr ∧
    lookupVar (mapTokensToThemeVariables t) "--char-color-primary-foreground" =
        t.primaryColor.map onPrimaryColor ∧
    lookupVar (mapTokensToThemeVariables t) "--char-color-muted" =
        t.accentColor.map cssColorStr ∧
    lookupVar (mapTokensToThemeVariables t) "--char-radius" =
        t.cornerRadius.map (fun n => toString n ++ "px") ∧
    lookupVar (mapTokensToThemeVariables t) "--char-font-sans" = t.fontFamily := by
  obtain ⟨bg, fg, pr, ac, ff, fs, cr, cs⟩ := t
  cases bg <;> cases fg <;> cases pr <;> cases ac <;> cases cr <;> cases ff <;>
    exact ⟨rfl, rfl, rfl, rfl, rfl, rfl, rfl⟩

/- ---------------------------------------------------------------------
Claim theorems.
--------------------------------------------------------------------- -/

/-- Page refuting claim C1: its call-to-action list holds first a button
with transparent background and red border, then a visibly-colored blue
button. -/
def c1Page : Page := { emptyPage with ctaButtons := [ctaBorderOnly, ctaBlue] }

/-- C1 counterexample: on `c1Page` the page contains an enabled,
visibly-colored call-to-action element (`ctaBlue`, solid blue
background), yet `extractPrimaryColor` returns the red border color of
the earlier call-to-action candidate whose background is transparent —
not the visibly-colored element's background color, contradicting the
claim's universal consequence. -/
theorem extractPrimaryColor_c1_counterexample :
    ctaBlue ∈ c1Page.ctaButtons ∧ ctaBlue.bg = CssColor.rgb 0 0 255 ∧
      extractPrimaryColor c1Page = some (CssColor.rgb 255 0 0) ∧
      ¬ extractPrimaryColor c1Page = some ctaBlue.bg := by
  refine ⟨by decide, rfl, rfl, by decide⟩

/-- C1 (amended): `extractPrimaryColor` evaluates the candidate lists in
the fixed priority order, background before border per candidate; when
some enabled call-to-action candidate yields a signal, the result is the
first such candidate's signal — never a lower-priority candidate's color
— and when that first signalling call-to-action candidate has a
non-transparent background, the result is exactly that background
color. -/
theorem extractPrimaryColor_cta_first (p : Page) (e : Elem)
    (h : firstWithSignal p.ctaButtons = some e) :
    extractPrimaryColor p = signalOf e ∧
      ∀ r g b, e.bg = CssColor.rgb r g b →
        extractPrimaryColor p = some (CssColor.rgb r g b) := by
  have h1 : extractPrimaryColor p = signalOf e := by
    unfold extractPrimaryColor
    rw [List.append_assoc, List.append_assoc]
    exact firstSignal_append_of_firstWithSignal p.ctaButtons
      (p.roleButtons ++ (p.primaryMarked ++ p.anchors)) e h
  refine ⟨h1, ?_⟩
  intro r g b hbg
  rw [h1, signalOf_of_bg e r g b hbg]

/-- Page for the C1 witness: a single visibly-colored call-to-action
button plus a distracting generic anchor candidate. -/
def c1WitnessPage : Page :=
  { emptyPage with
    ctaButtons := [ctaBlue]
    anchors := [{ bg := .transparent, border := .transparent
                  textColor := .rgb 37 99 235 }] }

/-- C1 witness: on the concrete `c1WitnessPage` the amended theorem
applies and yields the call-to-action button's blue background, not the
anchor's color. -/
theorem extractPrimaryColor_cta_first_witness :
    firstWithSignal c1WitnessPage.ctaButtons = some ctaBlue ∧
      extractPrimaryColor c1WitnessPage = some (CssColor.rgb 0 0 255) :=
  ⟨by decide, (extractPrimaryColor_cta_first c1WitnessPage ctaBlue (by decide)).2 0 0 255 rfl⟩

/-- C2: `classifyColorScheme` classifies `light` exactly when the
perceptual luminance (0.299 R + 0.587 G + 0.114 B on components
normalized to [0,1]) of the parsed background exceeds 0.5 and `dark`
otherwise; when the background does not parse into RGB components it
follows the system dark-mode preference, defaulting to `light` when that
signal is unavailable; pure white classifies `light`, pure black `dark`,
and `rgb(17,24,39)` `dark`. -/
theorem classifyColorScheme_spec (bg : String) (sys : Option Bool) :
    (∀ r g b, parseRgb bg = some (r, g, b) →
        ((classifyColorScheme bg sys = .light ↔ lumSpec r g b > 1 / 2) ∧
         (classifyColorScheme bg sys = .dark ↔ lumSpec r g b ≤ 1 / 2))) ∧
    (parseRgb bg = none → (sys = some true → classifyColorScheme bg sys = .dark) ∧
        (sys = some false → classifyColorScheme bg sys = .light) ∧
        (sys = none → classifyColorScheme bg sys = .light)) ∧
    classifyColorScheme "rgb(255, 255, 255)" sys = .light ∧
    classifyColorScheme "rgb(0, 0, 0)" sys = .dark ∧
    classifyColorScheme "rgb(17,24,39)" sys = .dark := by
  refine ⟨?_, ?_, ?_, ?_, ?_⟩
  · intro r g b h
    have hl := lumQ_eq_lumSpec r g b
    by_cases hc : lumQ r g b > 1 / 2
    · have hc2 : (2 : ℚ)⁻¹ < lumQ r g b := by rw [← one_div]; exact hc
      have hres : classifyColorScheme bg sys = .light := by
        simp [classifyColorScheme, h, hc2]
      rw [hres, ← hl]
      exact ⟨⟨fun _ => hc, fun _ => rfl⟩,
        ⟨fun h3 => absurd h3 (by decide), fun hle => absurd hle (not_le.mpr hc)⟩⟩
    · have hc2 : ¬ (2 : ℚ)⁻¹ < lumQ r g b := by rw [← one_div]; exact hc
      have hres : classifyColorScheme bg sys = .dark := by
        simp [classifyColorScheme, h, hc2]
      rw [hres, ← hl]
      exact ⟨⟨fun h3 => absurd h3 (by decide), fun hgt => absurd hgt hc⟩,
        ⟨fun _ => not_lt.mp hc, fun _ => rfl⟩⟩
  · intro h
    refine ⟨?_, ?_, ?_⟩ <;> intro hs <;> simp [classifyColorScheme, h, hs]
  · have hp : parseRgb "rgb(255, 255, 255)" = some (255, 255, 255) := by decide
    have hlum : (2 : ℚ)⁻¹ < lumQ 255 255 255 := by rw [← one_div]; norm_num [lumQ]
    simp [classifyColorScheme, hp, hlum]
  · have hp : parseRgb "rgb(0, 0, 0)" = some (0, 0, 0) := by decide
    have hlum : ¬ (2 : ℚ)⁻¹ < lumQ 0 0 0 := by rw [← one_div]; norm_num [lumQ]
    simp [classifyColorScheme, hp, hlum]
  · have hp : parseRgb "rgb(17,24,39)" = some (17, 24, 39) := by decide
    have hlum : ¬ (2 : ℚ)⁻¹ < lumQ 17 24 39 := by rw [← one_div]; norm_num [lumQ]
    simp [classifyColorScheme, hp, hlum]

/-- C2 witness: the dark end-to-end scenario, applied through the
theorem at `rgb(17,24,39)` with no system preference signal. -/
theorem classifyColorScheme_spec_witness :
    parseRgb "rgb(17,24,39)" = some (17, 24, 39) ∧
      (classifyColorScheme "rgb(17,24,39)" none = .light ↔ lumSpec 17 24 39 > 1 / 2) :=
  ⟨rfl, ((classifyColorScheme_spec "rgb(17,24,39)" none).1 17 24 39 rfl).1⟩

/-- C3: on every page where each primary-color cascade candidate and each
accent-color cascade candidate is transparent/unset — including pages
with no candidate elements at all — the Extractor leaves `primaryColor`
and `accentColor` absent, while `cornerRadius` is still present. -/
theorem extractTokens_no_signal_absent (p : Page)
    (hP : ∀ e ∈ p.ctaButtons ++ p.roleButtons ++ p.primaryMarked ++ p.anchors,
        signalOf e = none)
    (hA : ∀ e ∈ p.highlightBadges ++ p.anchors, accentSignalOf e = none) :
    (extractTokens p).primaryColor = none ∧
      (extractTokens p).accentColor = none ∧
      ((extractTokens p).cornerRadius).isSome = true := by
  refine ⟨?_, ?_, rfl⟩
  · have : firstSignal (p.ctaButtons ++ p.roleButtons ++ p.primaryMarked ++ p.anchors)
        = none := (firstSignal_eq_none_iff _).mpr hP
    simpa [extractTokens, extractPrimaryColor] using this
  · have : firstAccentSignal (p.highlightBadges ++ p.anchors) = none :=
      (firstAccentSignal_eq_none_iff _).mpr hA
    simpa [extractTokens, extractAccentColor] using this

/-- C3 witness: on the candidate-free `emptyPage`, both optional color
tokens are absent while `cornerRadius` is present. -/
theorem extractTokens_no_signal_absent_witness :
    (extractTokens emptyPage).primaryColor = none ∧
      (extractTokens emptyPage).accentColor = none ∧
      ((extractTokens emptyPage).cornerRadius).isSome = true :=
  extractTokens_no_signal_absent emptyPage (by decide) (by decide)

/-- C4: `extractCornerRadius` returns the default 8 when every candidate
radius is literally zero; the cascade fails exactly when every candidate
is zero; a successful cascade returns a non-zero radius that is the
first non-zero entry of the candidate list; and in particular a page
whose first candidate has radius 0 and whose next candidate has a
non-zero radius yields that later radius. -/
theorem extractCornerRadius_spec (p : Page) :
    ((∀ x ∈ p.radiusCandidates, x = 0) → extractCornerRadius p = 8) ∧
    (firstNonZero p.radiusCandidates = none ↔ ∀ x ∈ p.radiusCandidates, x = 0) ∧
    (∀ r, firstNonZero p.radiusCandidates = some r →
        extractCornerRadius p = r ∧ r ≠ 0 ∧
        ∃ i, p.radiusCandidates.get? i = some r ∧
          ∀ j < i, p.radiusCandidates.get? j = some 0) ∧
    (∀ r rest, p.radiusCandidates = 0 :: r :: rest → r ≠ 0 →
        extractCornerRadius p = r) := by
  refine ⟨?_, firstNonZero_eq_none_iff _, ?_, ?_⟩
  · intro hall
    have hz : firstNonZero p.radiusCandidates = none :=
      (firstNonZero_eq_none_iff _).mpr hall
    simp [extractCornerRadius, hz]
  · intro r hr
    obtain ⟨hne, i, hi, hlt⟩ := firstNonZero_some_spec _ r hr
    exact ⟨by simp [extractCornerRadius, hr], hne, i, hi, hlt⟩
  · intro r rest hc hr
    simp [extractCornerRadius, hc, firstNonZero, hr]

/-- Page for the C4 witness: its first rounded-surface candidate has
radius 0, the next candidate radius 12. -/
def radiusPage : Page := { emptyPage with radiusCandidates := [0, 12] }

/-- C4 witness: on `radiusPage` the cascade skips the zero radius and
returns the later non-zero candidate 12, not 0 and not the default 8. -/
theorem extractCornerRadius_spec_witness :
    radiusPage.radiusCandidates = 0 :: 12 :: [] ∧ (12 : Nat) ≠ 0 ∧
      extractCornerRadius radiusPage = 12 :=
  ⟨rfl, by decide, (extractCornerRadius_spec radiusPage).2.2.2 12 [] rfl (by decide)⟩

/-- C5: for every page the Extractor returns both a background and a
foreground color as present values, and they are exactly the computed
surface color and computed text color of the document's root content
container. -/
theorem extractBackgroundAndForeground_present (p : Page) :
    (extractTokens p).backgroundColor = some p.rootStyle.backgroundColor ∧
    (extractTokens p).foregroundColor = some p.rootStyle.color ∧
    ((extractTokens p).backgroundColor).isSome = true ∧
    ((extractTokens p).foregroundColor).isSome = true ∧
    extractBackgroundAndForeground p = (p.rootStyle.backgroundColor, p.rootStyle.color) :=
  ⟨rfl, rfl, rfl, rfl, rfl⟩

/-- C6: `mapTokensToThemeVariables` is a total, deterministic function of
the token record — equal inputs give identical variable maps — and each
present token is bound to its fixed widget variable(s) (a present primary
color also feeds the derived on-primary foreground) while each absent
token leaves its widget variable(s) unset. -/
theorem mapTokensToThemeVariables_spec (t : RawTokens) :
    (∀ t2 : RawTokens, t = t2 →
        mapTokensToThemeVariables t = mapTokensToThemeVariables t2) ∧
    (∀ c, t.backgroundColor = some c →
        lookupVar (mapTokensToThemeVariables t) "--char-color-background" =
          some (cssColorStr c)) ∧
    (∀ c, t.foregroundColor = some c →
        lookupVar (mapTokensToThemeVariables t) "--char-color-foreground" =
          some (cssColorStr c)) ∧
    (∀ c, t.primaryColor = some c →
        lookupVar (mapTokensToThemeVariables t) "--char-color-primary" =
            some (cssColorStr c) ∧
          lookupVar (mapTokensToThemeVariables t) "--char-color-primary-foreground" =
            some (onPrimaryColor c)) ∧
    (t.primaryColor = none →
        lookupVar (mapTokensToThemeVariables t) "--char-color-primary" = none ∧
        lookupVar (mapTokensToThemeVariables t) "--char-color-primary-foreground" = none) ∧
    (∀ c, t.accentColor = some c →
        lookupVar (mapTokensToThemeVariables t) "--char-color-muted" =
          some (cssColorStr c)) ∧
    (t.accentColor = none →
        lookupVar (mapTokensToThemeVariables t) "--char-color-muted" = none) ∧
    (∀ n, t.cornerRadius = some n →
        lookupVar (mapTokensToThemeVariables t) "--char-radius" =
          some (toString n ++ "px")) ∧
    (t.cornerRadius = none →
        lookupVar (mapTokensToThemeVariables t) "--char-radius" = none) ∧
    (∀ f, t.fontFamily = some f →
        lookupVar (mapTokensToThemeVariables t) "--char-font-sans" = some f) ∧
    (t.fontFamily = none →
        lookupVar (mapTokensToThemeVariables t) "--char-font-sans" = none) := by
  obtain ⟨hbg, hfg, hpr, hprf, hmu, hra, hfo⟩ := lookupVar_map t
  refine ⟨fun t2 ht => by rw [ht], ?_, ?_, ?_, ?_, ?_, ?_, ?_, ?_, ?_, ?_⟩
  · intro c h; rw [hbg, h]; rfl
  · intro c h; rw [hfg, h]; rfl
  · intro c h; exact ⟨by rw [hpr, h]; rfl, by rw [hprf, h]; rfl⟩
  · intro h; exact ⟨by rw [hpr, h]; rfl, by rw [hprf, h]; rfl⟩
  · intro c h; rw [hmu, h]; rfl
  · intro h; rw [hmu, h]; rfl
  · intro n h; rw [hra, h]; rfl
  · intro h; rw [hra, h]; rfl
  · intro f h; rw [hfo, h]
  · intro h; rw [hfo, h]

/-- Token record of end-to-end scenario 1: present background,
foreground, primary, radius and font, absent accent color. -/
def sampleTokens : RawTokens :=
  { backgroundColor := some (.rgb 255 255 255)
    foregroundColor := some (.rgb 51 51 51)
    primaryColor := some (.rgb 102 126 234)
    accentColor := none
    fontFamily := some "system-ui"
    fontSize := some 16
    cornerRadius := some 8
    colorScheme := some .light }

/-- C6 witness: applying the mapper theorem to the concrete
`sampleTokens` binds the present primary token and leaves the widget
variable of the absent accent token unset. -/
theorem mapTokensToThemeVariables_spec_witness :
    lookupVar (mapTokensToThemeVariables sampleTokens) "--char-color-primary" =
        some (cssColorStr (.rgb 102 126 234)) ∧
      lookupVar (mapTokensToThemeVariables sampleTokens) "--char-color-muted" = none :=
  ⟨((mapTokensToThemeVariables_spec sampleTokens).2.2.2.1 (.rgb 102 126 234) rfl).1,
    (mapTokensToThemeVariables_spec sampleTokens).2.2.2.2.2.2.1 rfl⟩

/-- C7: the injected panel starts Collapsed (width 0, toggle visible);
every state reachable through the two wired event handlers is either
Collapsed (width 0, toggle visible) or Expanded (width 420, toggle
hidden); and the transitions are exactly toggle-click to Expanded and
the widget close event to Collapsed — the handlers are the only
transition sources the script registers, with no timer. -/
theorem panel_state_machine :
    panelRun [] = collapsedState ∧
    collapsedState.width = 0 ∧ collapsedState.toggleShown = true ∧
    expandedState.width = 420 ∧ expandedState.toggleShown = false ∧
    (∀ evs : List PanelEvent,
        panelRun evs = collapsedState ∨ panelRun evs = expandedState) ∧
    (∀ evs : List PanelEvent, ∀ e : PanelEvent,
        panelRun (evs ++ [e]) = panelStep (panelRun evs) e) ∧
    (∀ s : PanelState,
        panelStep s .toggleClick = expandedState ∧ panelStep s .charClose = collapsedState) := by
  refine ⟨rfl, rfl, rfl, rfl, rfl, panelRun_cases, ?_, fun s => ⟨rfl, rfl⟩⟩
  intro evs e
  simp [panelRun, List.foldl_append]

/-- App shell of the C8 scenario before injection: overflow `visible`,
one content child. -/
def shellBefore : Shell := { overflow := "visible", children := ["content"] }

/-- Host page of the C8 scenario before injection. -/
def pageBefore : HostPage :=
  { appShell := some shellBefore, bodyChildren := ["app"]
    otherStyles := [("nav", "color:blue")] }

/-- C8 counterexample: running the injection script on `pageBefore`
overwrites the pre-existing app shell's `overflow` style from `visible`
to `hidden`, so a pre-existing element of the host layout tree is
modified, contradicting the claim that no property or style of any
existing element changes. -/
theorem buildInjectedPanel_c8_counterexample :
    Option.map Shell.overflow pageBefore.appShell = some "visible" ∧
    buildInjectedPanel pageBefore =
      Except.ok
        { appShell := some { overflow := "hidden", children := ["content", "char-panel"] }
          bodyChildren := ["app", "char-toggle"]
          otherStyles := [("nav", "color:blue")] } ∧
    Option.map Shell.overflow
        (match buildInjectedPanel pageBefore with
          | Except.ok q => q.appShell
          | Except.error _ => none) = some "hidden" ∧
    ("hidden" : String) ≠ "visible" :=
  ⟨rfl, rfl, rfl, by decide⟩

/-- C8 (amended): the injection script is additive towards every
pre-existing element except the app shell itself: it leaves all other
elements' styles untouched and only appends new children (the panel to
the shell, the toggle to the body), but it does set the pre-existing app
shell's `overflow` style to `hidden`. -/
theorem buildInjectedPanel_additive_except_shell (p : HostPage) (sh : Shell)
    (h : p.appShell = some sh) :
    ∃ q, buildInjectedPanel p = Except.ok q ∧
      q.otherStyles = p.otherStyles ∧
      q.bodyChildren = p.bodyChildren ++ ["char-toggle"] ∧
      ∃ sh2, q.appShell = some sh2 ∧
        sh2.children = sh.children ++ ["char-panel"] ∧ sh2.overflow = "hidden" := by
  refine ⟨{ p with
            appShell := some { overflow := "hidden"
                               children := sh.children ++ ["char-panel"] }
            bodyChildren := p.bodyChildren ++ ["char-toggle"] }, ?_, rfl, rfl,
    ⟨_, rfl, rfl, rfl⟩⟩
  simp [buildInjectedPanel, h]

/-- C8 witness: the amended additivity statement, instantiated on the
concrete `pageBefore`. -/
theorem buildInjectedPanel_additive_except_shell_witness :
    pageBefore.appShell = some shellBefore ∧
      ∃ q, buildInjectedPanel pageBefore = Except.ok q ∧
        q.otherStyles = pageBefore.otherStyles ∧
        q.bodyChildren = pageBefore.bodyChildren ++ ["char-toggle"] ∧
        ∃ sh2, q.appShell = some sh2 ∧
          sh2.children = shellBefore.children ++ ["char-panel"] ∧ sh2.overflow = "hidden" :=
  ⟨rfl, buildInjectedPanel_additive_except_shell pageBefore shellBefore rfl⟩

/-- Host page with no identifiable flex layout container anywhere. -/
def flexlessPage : HostPage :=
  { appShell := none, bodyChildren := ["plain"], otherStyles := [] }

/-- C9 counterexample: on a page with no identifiable flex container the
script fails with the generic JavaScript `TypeError` of the unguarded
`appShell.style` dereference — not with a distinct, recognizable
injection-failure outcome, contradicting the claim. -/
theorem buildInjectedPanel_c9_counterexample :
    flexlessPage.appShell = none ∧
    buildInjectedPanel flexlessPage = Except.error JsError.typeError ∧
    JsError.typeError ≠ JsError.injectionFailure ∧
    ¬ buildInjectedPanel flexlessPage = Except.error JsError.injectionFailure := by
  refine ⟨rfl, rfl, by decide, ?_⟩
  intro hE
  simp [buildInjectedPanel, flexlessPage] at hE

/-- C9 (amended): when the page has no identifiable flex layout
container, the injection script fails with the generic `TypeError` of
the null dereference; the failure is surfaced, but not as a distinct
injection-failure outcome. -/
theorem buildInjectedPanel_no_shell_generic_error (p : HostPage)
    (h : p.appShell = none) :
    buildInjectedPanel p = Except.error JsError.typeError := by
  simp [buildInjectedPanel, h]

/-- C9 witness: the amended failure statement on the concrete
`flexlessPage`. -/
theorem buildInjectedPanel_no_shell_generic_error_witness :
    flexlessPage.appShell = none ∧
      buildInjectedPanel flexlessPage = Except.error JsError.typeError :=
  ⟨rfl, buildInjectedPanel_no_shell_generic_error flexlessPage rfl⟩

/-- Numeric value of one lowercase hexadecimal digit character. -/
def hexDigitVal (c : Char) : Nat :=
  if c.toNat ≤ 57 then c.toNat - 48 else c.toNat - 87

/-- Numeric value of a two-character hexadecimal string. -/
def hexPairVal (s : String) : Nat :=
  match s.data with
  | [c1, c2] => 16 * hexDigitVal c1 + hexDigitVal c2
  | _ => 0

/-- Whether a character is a decimal digit or a lowercase hexadecimal
letter a-f. -/
def isHexLowerDigit (c : Char) : Bool :=
  (48 ≤ c.toNat && c.toNat ≤ 57) || (97 ≤ c.toNat && c.toNat ≤ 102)

set_option maxRecDepth 8192 in
theorem hexByte_byte_facts :
    ∀ n < 256, (hexByte (some n)).length = 2 ∧
      hexPairVal (hexByte (some n)) = n ∧
      (hexByte (some n)).data.all isHexLowerDigit = true := by decide

/-- C10: `rgbToHex` returns any string with no decimal digit run
unchanged; on a string whose first three digit runs are byte values it
returns `#` followed by exactly the three two-digit lowercase
hexadecimal encodings of those values in order; and in particular
`rgb(102, 126, 234)` maps to `#667eea`. -/
theorem rgbToHex_spec (s : String) :
    ((∀ c ∈ s.data, ¬ c.isDigit = true) → rgbToHex s = s) ∧
    (∀ r g b rest, digitRuns s = r :: g :: b :: rest →
        r ≤ 255 → g ≤ 255 → b ≤ 255 →
        rgbToHex s = "#" ++ hexByte (some r) ++ hexByte (some g) ++ hexByte (some b) ∧
        ((hexByte (some r)).length = 2 ∧ hexPairVal (hexByte (some r)) = r ∧
          (hexByte (some r)).data.all isHexLowerDigit = true) ∧
        ((hexByte (some g)).length = 2 ∧ hexPairVal (hexByte (some g)) = g ∧
          (hexByte (some g)).data.all isHexLowerDigit = true) ∧
        ((hexByte (some b)).length = 2 ∧ hexPairVal (hexByte (some b)) = b ∧
          (hexByte (some b)).data.all isHexLowerDigit = true)) ∧
    rgbToHex "rgb(102, 126, 234)" = "#667eea" := by
  refine ⟨?_, ?_, by decide⟩
  · intro h
    have hz : digitRunsAux s.data [] = [] := digitRunsAux_nil_of_no_digit s.data h
    simp [rgbToHex, digitRuns, hz]
  · intro r g b rest h hr hg hb
    refine ⟨by simp [rgbToHex, h], hexByte_byte_facts r (by omega),
      hexByte_byte_facts g (by omega), hexByte_byte_facts b (by omega)⟩

/-- C10 witness: both branches of the theorem on concrete inputs — a
digit-free string comes back unchanged, and the documented example
produces the hash-prefixed concatenation of the three hexadecimal
bytes. -/
theorem rgbToHex_spec_witness :
    rgbToHex "transparent" = "transparent" ∧
      digitRuns "rgb(102, 126, 234)" = [102, 126, 234] ∧
      rgbToHex "rgb(102, 126, 234)" =
        "#" ++ hexByte (some 102) ++ hexByte (some 126) ++ hexByte (some 234) := by
  have h2 : digitRuns "rgb(102, 126, 234)" = [102, 126, 234] := by decide
  exact ⟨(rgbToHex_spec "transparent").1 (by decide), h2,
    ((rgbToHex_spec "rgb(102, 126, 234)").2.1 102 126 234 [] h2
      (by decide) (by decide) (by decide)).1⟩

end CharPlugin
